import Mathlib

/-!
Verification development for the orcest.ai chat gateway (`app/lamino.py` and
`app/main.py`).  The Python handlers are shallowly embedded: the process-local
dicts (`_workspaces`, `_chat_histories`, `_uploaded_files`) become insertion
ordered association lists, every nondeterministic input (generated uuid, clock
reading, upstream HTTP outcome, identity-provider answer) becomes an explicit
argument, and each handler becomes a pure function from the old store to the
new store and a result.
-/

set_option autoImplicit false

namespace Orcest

/-! ## Association-list model of Python `dict` (string keys, insertion order) -/

variable {α : Type}

/-- Python `d.get(k)` / `d[k]`: value at the first matching key. -/
def dictLookup : List (String × α) → String → Option α
  | [], _ => none
  | (k', v) :: t, k => if k' = k then some v else dictLookup t k

/-- Python `d[k] = v`: replace the value at `k` in place, or append a new entry. -/
def dictInsert : List (String × α) → String → α → List (String × α)
  | [], k, v => [(k, v)]
  | (k', v') :: t, k, v => if k' = k then (k, v) :: t else (k', v') :: dictInsert t k v

/-- Python `del d[k]` / `d.pop(k, None)`. -/
def dictRemove (d : List (String × α)) (k : String) : List (String × α) :=
  d.filter (fun kv => kv.1 ≠ k)

/-- The key set of the dict (`k in d`). -/
def dictKeys (d : List (String × α)) : List String :=
  d.map Prod.fst

/-- Python `d.update(other)`: assign every key/value pair of `other` into `d`. -/
def dictUpdate (d other : List (String × α)) : List (String × α) :=
  other.foldl (fun acc kv => dictInsert acc kv.1 kv.2) d

theorem dictLookup_dictInsert (d : List (String × α)) (k : String) (v : α) (k' : String) :
    dictLookup (dictInsert d k v) k' = if k = k' then some v else dictLookup d k' := by
  induction d with
  | nil => simp [dictInsert, dictLookup]
  | cons hd t ih =>
    obtain ⟨k0, v0⟩ := hd
    by_cases h0 : k0 = k
    · subst h0
      by_cases h1 : k0 = k'
      · subst h1; simp [dictInsert, dictLookup]
      · simp [dictInsert, dictLookup, h1]
    · by_cases h1 : k0 = k'
      · subst h1
        simp [dictInsert, dictLookup, h0, Ne.symm h0]
      · simp [dictInsert, dictLookup, h0, h1, ih]

theorem dictLookup_eq_none_iff (d : List (String × α)) (k : String) :
    dictLookup d k = none ↔ k ∉ dictKeys d := by
  induction d with
  | nil => simp [dictLookup, dictKeys]
  | cons hd t ih =>
    obtain ⟨k0, v0⟩ := hd
    by_cases h0 : k0 = k
    · subst h0; simp [dictLookup, dictKeys]
    · simp [dictLookup, dictKeys, h0, ih, Ne.symm h0]

theorem mem_dictKeys_iff_lookup (d : List (String × α)) (k : String) :
    k ∈ dictKeys d ↔ dictLookup d k ≠ none := by
  constructor
  · intro h hn
    exact (dictLookup_eq_none_iff d k).mp hn h
  · intro h
    by_contra hk
    exact h ((dictLookup_eq_none_iff d k).mpr hk)

theorem mem_dictKeys_dictInsert (d : List (String × α)) (k : String) (v : α) (k' : String) :
    k' ∈ dictKeys (dictInsert d k v) ↔ k' = k ∨ k' ∈ dictKeys d := by
  rw [mem_dictKeys_iff_lookup, mem_dictKeys_iff_lookup, dictLookup_dictInsert]
  by_cases h : k = k'
  · subst h; simp
  · simp [h, Ne.symm h]

theorem mem_dictKeys_dictRemove (d : List (String × α)) (k k' : String) :
    k' ∈ dictKeys (dictRemove d k) ↔ k' ∈ dictKeys d ∧ k' ≠ k := by
  simp only [dictRemove, dictKeys, List.mem_map, List.mem_filter]
  constructor
  · rintro ⟨kv, ⟨hm, hne⟩, hk⟩
    subst hk
    exact ⟨⟨kv, hm, rfl⟩, by simpa using hne⟩
  · rintro ⟨⟨kv, hm, hk⟩, hne⟩
    subst hk
    exact ⟨kv, ⟨hm, by simpa using hne⟩, rfl⟩

theorem dictLookup_isSome_of_mem (d : List (String × α)) (k : String)
    (h : k ∈ dictKeys d) : ∃ v, dictLookup d k = some v := by
  cases hl : dictLookup d k with
  | none => exact absurd h ((dictLookup_eq_none_iff d k).mp hl)
  | some v => exact ⟨v, rfl⟩

theorem mem_of_dictLookup_eq_some (d : List (String × α)) (k : String) (v : α)
    (h : dictLookup d k = some v) : (k, v) ∈ d := by
  induction d with
  | nil => simp [dictLookup] at h
  | cons hd t ih =>
    obtain ⟨k0, v0⟩ := hd
    by_cases h0 : k0 = k
    · subst h0
      rw [show dictLookup ((k0, v0) :: t) k0 = some v0 from by simp [dictLookup]] at h
      injection h with h
      subst h
      exact List.mem_cons_self _ _
    · rw [show dictLookup ((k0, v0) :: t) k = dictLookup t k from by simp [dictLookup, h0]] at h
      exact List.mem_cons_of_mem _ (ih h)

theorem dictInsert_of_not_mem (d : List (String × α)) (k : String) (v : α)
    (h : k ∉ dictKeys d) : dictInsert d k v = d ++ [(k, v)] := by
  induction d with
  | nil => simp [dictInsert]
  | cons hd t ih =>
    obtain ⟨k0, v0⟩ := hd
    simp only [dictKeys, List.map_cons, List.mem_cons] at h
    push_neg at h
    have h1 : ¬ k0 = k := Ne.symm h.1
    rw [show dictInsert ((k0, v0) :: t) k v = (k0, v0) :: dictInsert t k v from by
      simp [dictInsert, h1]]
    rw [ih (by simpa [dictKeys] using h.2)]
    simp

theorem dictLookup_dictUpdate (d other : List (String × α)) (k : String)
    (hnd : (other.map Prod.fst).Nodup) :
    dictLookup (dictUpdate d other) k = (dictLookup other k).orElse (fun _ => dictLookup d k) := by
  induction other generalizing d with
  | nil => simp [dictUpdate, dictLookup]
  | cons hd t ih =>
    obtain ⟨k0, v0⟩ := hd
    simp only [List.map_cons, List.nodup_cons] at hnd
    have step : dictUpdate d ((k0, v0) :: t) = dictUpdate (dictInsert d k0 v0) t := rfl
    rw [step, ih _ hnd.2]
    by_cases h0 : k0 = k
    · subst h0
      have hnone : dictLookup t k0 = none := by
        rw [dictLookup_eq_none_iff]
        intro hmem
        exact hnd.1 (by simpa [dictKeys] using hmem)
      simp [dictLookup, hnone, dictLookup_dictInsert]
    · simp [dictLookup, h0, dictLookup_dictInsert]

/-! ## JSON-ish scalar values (settings dicts carry strings and numbers) -/

/-- A scalar value in a settings dict: Python stores strings (`policy`),
floats (`temperature`, modelled as rationals) and ints (`max_tokens`). -/
inductive SVal where
  | s (v : String)
  | num (v : ℚ)
deriving DecidableEq, Repr

/-! ## Data model: workspaces, history messages, uploaded files, the store -/

/-- One step of the decision chain (`_build_decision_chain`). -/
structure ChainStep where
  step : Nat
  node : String
  detail : String
  type : String
deriving DecidableEq, Repr

/-- A workspace dict as built by `create_workspace` / `_create_default_workspace`. -/
structure Workspace where
  id : String
  name : String
  description : String
  owner_id : String
  owner_name : String
  members : List String
  model : String
  provider : String
  system_prompt : String
  created_at : String
  updated_at : String
  settings : List (String × SVal)
deriving DecidableEq, Repr

/-- A chat-history entry.  User turns leave the assistant-only fields at their
defaults; assistant turns fill them in (`chat_completion`). -/
structure HistMsg where
  id : String
  role : String
  content : String
  files : List String := []
  timestamp : String
  model : String
  provider : String
  actual_model : Option String := none
  route : Option String := none
  upstream : Option String := none
  latency_ms : Option Nat := none
  decision_chain : List ChainStep := []
  usage : List (String × SVal) := []
deriving DecidableEq, Repr

/-- An `_uploaded_files` record (`upload_file`). -/
structure FileRecord where
  id : String
  name : String
  type : String
  extension : String
  size : Nat
  content_type : String
  uploaded_by : String
  workspace_id : String
  uploaded_at : String
  data_b64 : String
deriving DecidableEq, Repr

/-- The three process-local stores of `lamino.py`:
`_workspaces`, `_chat_histories`, `_uploaded_files`. -/
structure Store where
  workspaces : List (String × Workspace)
  histories : List (String × List HistMsg)
  files : List (String × FileRecord)
deriving DecidableEq, Repr

/-- The environment-derived configuration read at module load. -/
structure Config where
  rainymodel_base_url : String := "https://rm.orcest.ai/v1"
  rainymodel_master_key : String := ""
  ollamafree_api_base : String := "https://ollamafreeapi.orcest.ai"
  openrouter_api_key : String := ""
  ollamafree_api_key : String := ""
deriving DecidableEq, Repr

/-- An `HTTPException(status_code=..., detail=...)`. -/
structure HttpErr where
  status : Nat
  detail : String
deriving DecidableEq, Repr

/-! ## Session resolution (`_verify_sso_token` in lamino.py,
`_is_authenticated_token` in main.py)

The network call to the identity provider is abstracted as a function
argument (`userinfo` resp. `verify`): the embedded code only reaches it on the
same condition the Python code reaches its `httpx` call. -/

/-- The fixed development identity returned when no client secret is set. -/
structure SsoUser where
  sub : String
  name : String
  email : String
  role : String
deriving DecidableEq, Repr

def devUser : SsoUser :=
  { sub := "dev-user", name := "Developer", email := "dev@orcest.ai", role := "admin" }

/-- `lamino.py` `_verify_sso_token`.  `secret` is `SSO_CLIENT_SECRET`;
`userinfo` stands for the provider's userinfo endpoint (already folding the
"non-200 or exception ⇒ None" handling into its return value). -/
def verify_sso_token (secret : String) (userinfo : String → Option SsoUser)
    (token : String) : Option SsoUser :=
  if token = "" then none
  else if secret = "" then some devUser
  else userinfo token

/-- `main.py` `_is_authenticated_token`.  `secret` is `SSO_CLIENT_SECRET`;
`verify` stands for the provider's token-verify endpoint (folding
"status 200 and body.valid" into its Bool). -/
def is_authenticated_token (secret : String) (verify : String → Bool)
    (token : String) : Bool :=
  if token = "" ∧ secret = "" then true
  else if token = "" ∨ secret = "" then false
  else verify token

/-! ## Provider configuration (`ORCEST_PROVIDERS`) -/

/-- `ORCEST_PROVIDERS[p]["name"]`, with `get(provider, {}).get("name", provider)`
fallback as used in `_build_decision_chain`. -/
def providerDisplayName (provider : String) : String :=
  (dictLookup [("rainymodel", "RainyModel"), ("openrouter", "OpenRouter"),
    ("ollamafreeapi", "OllamaFreeAPI")] provider).getD provider

/-- `ORCEST_PROVIDERS.get(provider, ORCEST_PROVIDERS["rainymodel"])["base_url"]`. -/
def providerBaseUrl (cfg : Config) (provider : String) : String :=
  if provider = "rainymodel" then cfg.rainymodel_base_url
  else if provider = "openrouter" then "https://openrouter.ai/api/v1"
  else if provider = "ollamafreeapi" then cfg.ollamafree_api_base
  else cfg.rainymodel_base_url

/-- The api-key selection in `chat_completion` (lines 552-557). -/
def providerApiKey (cfg : Config) (provider : String) : String :=
  if provider = "openrouter" then cfg.openrouter_api_key
  else if provider = "ollamafreeapi" then cfg.ollamafree_api_key
  else cfg.rainymodel_master_key

/-! ## Decision chain (`_build_decision_chain`) -/

/-- Python's `needle in hay` substring test, on character lists. -/
def containsSub (hay needle : List Char) : Bool :=
  needle.isPrefixOf hay ||
    match hay with
    | [] => false
    | _ :: t => containsSub t needle

/-- The static upstream display-name table in `_build_decision_chain`. -/
def upstreamDisplayName (upstream : String) : String :=
  (dictLookup [("hf", "HuggingFace Router"), ("ollama", "Ollama (Self-hosted)"),
    ("openrouter", "OpenRouter (Premium)"), ("ollamafreeapi", "OllamaFreeAPI (Free)")]
    upstream).getD upstream

/-- `_build_decision_chain` (lamino.py lines 754-812). -/
def build_decision_chain (provider model_requested route upstream actual_model
    policy fallback_reason : String) : List ChainStep :=
  let step1 : ChainStep :=
    ⟨1, "User Request", "Model: " ++ model_requested ++ ", Policy: " ++ policy, "request"⟩
  let chain : List ChainStep :=
    if provider = "rainymodel" ∨ containsSub model_requested.data "rainymodel".data then
      [step1,
       ⟨2, "RainyModel Router", "Policy: " ++ policy ++ ", Route: " ++ route, "router"⟩,
       ⟨3, upstreamDisplayName upstream,
         "Upstream: " ++ upstream ++
           (if fallback_reason ≠ "" then ", Fallback: " ++ fallback_reason else ""),
         "upstream"⟩]
    else
      [step1, ⟨2, providerDisplayName provider, "Direct provider call", "provider"⟩]
  chain ++ [⟨chain.length + 1, "Model: " ++ actual_model, "Final model execution", "model"⟩]

/-! ## Workspace operations

Each handler body after the 401 gate is embedded as a pure function.  The
authenticated caller is the `uid`/`uname` arguments; generated uuids and
`datetime.now()` readings are explicit arguments. -/

/-- The JSON body accepted by `create_workspace` (each `body.get(k, default)`;
`none` means the key is absent). -/
structure CreateBody where
  name : Option String := none
  description : Option String := none
  members : Option (List String) := none
  model : Option String := none
  provider : Option String := none
  system_prompt : Option String := none
  temperature : Option SVal := none
  max_tokens : Option SVal := none
  policy : Option SVal := none
deriving Repr

/-- `create_workspace` (POST /api/workspaces), lamino.py lines 213-242. -/
def create_workspace (st : Store) (uid uname : String) (body : CreateBody)
    (ws_id now : String) : Store × Workspace :=
  let workspace : Workspace :=
    { id := ws_id,
      name := body.name.getD "New Workspace",
      description := body.description.getD "",
      owner_id := uid,
      owner_name := uname,
      members := body.members.getD [],
      model := body.model.getD "rainymodel/auto",
      provider := body.provider.getD "rainymodel",
      system_prompt := body.system_prompt.getD "",
      created_at := now,
      updated_at := now,
      settings :=
        [("temperature", body.temperature.getD (SVal.num (7 / 10))),
         ("max_tokens", body.max_tokens.getD (SVal.num 4096)),
         ("policy", body.policy.getD (SVal.s "auto"))] }
  ({ st with workspaces := dictInsert st.workspaces ws_id workspace,
             histories := dictInsert st.histories ws_id [] },
   workspace)

/-- The JSON body accepted by `update_workspace`; `none` means the key is
absent from the payload. -/
structure UpdatePayload where
  name : Option String := none
  description : Option String := none
  model : Option String := none
  provider : Option String := none
  system_prompt : Option String := none
  members : Option (List String) := none
  settings : Option (List (String × SVal)) := none
deriving Repr

/-- The field-by-field mutation performed by `update_workspace`:
`ws[key] = body[key]` for each key present in the payload,
`ws["settings"].update(body["settings"])` when a settings dict is present,
then `updated_at` is stamped. -/
def applyWorkspaceUpdate (ws : Workspace) (body : UpdatePayload) (now : String) : Workspace :=
  { ws with
    name := body.name.getD ws.name,
    description := body.description.getD ws.description,
    model := body.model.getD ws.model,
    provider := body.provider.getD ws.provider,
    system_prompt := body.system_prompt.getD ws.system_prompt,
    members := body.members.getD ws.members,
    settings := match body.settings with
      | some s => dictUpdate ws.settings s
      | none => ws.settings,
    updated_at := now }

/-- `update_workspace` (PUT /api/workspaces/{ws_id}), lamino.py lines 245-266. -/
def update_workspace (st : Store) (uid ws_id : String) (body : UpdatePayload)
    (now : String) : Store × Except HttpErr Workspace :=
  match dictLookup st.workspaces ws_id with
  | none => (st, .error ⟨404, "Workspace not found"⟩)
  | some ws =>
    if ws.owner_id ≠ uid ∧ uid ∉ ws.members then
      (st, .error ⟨403, "Access denied"⟩)
    else
      let ws' := applyWorkspaceUpdate ws body now
      ({ st with workspaces := dictInsert st.workspaces ws_id ws' }, .ok ws')

/-- `delete_workspace` (DELETE /api/workspaces/{ws_id}), lamino.py lines 269-285. -/
def delete_workspace (st : Store) (uid ws_id : String) : Store × Except HttpErr Bool :=
  match dictLookup st.workspaces ws_id with
  | none => (st, .error ⟨404, "Workspace not found"⟩)
  | some ws =>
    if ws.owner_id ≠ uid then
      (st, .error ⟨403, "Only the owner can delete a workspace"⟩)
    else
      ({ st with workspaces := dictRemove st.workspaces ws_id,
                 histories := dictRemove st.histories ws_id },
       .ok true)

/-- `_create_default_workspace`, lamino.py lines 288-312.  The `hashlib.md5`
hexdigest is abstracted as the function argument `h` (any fixed function of
the string `"default-" ++ uid`). -/
def mkDefaultWorkspace (uid uname now ws_id : String) : Workspace :=
  { id := ws_id,
    name := uname ++ " - Default",
    description := "Default workspace with RainyModel auto-connect",
    owner_id := uid,
    owner_name := uname,
    members := [],
    model := "rainymodel/auto",
    provider := "rainymodel",
    system_prompt := "",
    created_at := now,
    updated_at := now,
    settings :=
      [("temperature", SVal.num (7 / 10)),
       ("max_tokens", SVal.num 4096),
       ("policy", SVal.s "auto")] }

def create_default_workspace (h : String → String) (st : Store) (uid uname now : String) :
    Store × Workspace :=
  let ws_id := h ("default-" ++ uid)
  match dictLookup st.workspaces ws_id with
  | some ws => (st, ws)
  | none =>
    let workspace := mkDefaultWorkspace uid uname now ws_id
    ({ st with workspaces := dictInsert st.workspaces ws_id workspace,
               histories := dictInsert st.histories ws_id [] },
     workspace)

/-- The list comprehension in `list_workspaces`: workspaces whose owner is the
caller or whose members contain the caller, in insertion order. -/
def userWorkspaces (st : Store) (uid : String) : List Workspace :=
  (st.workspaces.map Prod.snd).filter
    (fun ws => ws.owner_id == uid || ws.members.contains uid)

/-- `list_workspaces` (GET /api/workspaces), lamino.py lines 194-210. -/
def list_workspaces (h : String → String) (st : Store) (uid uname now : String) :
    Store × List Workspace :=
  let user_workspaces := userWorkspaces st uid
  if user_workspaces.isEmpty then
    let (st2, default_ws) := create_default_workspace h st uid uname now
    (st2, [default_ws])
  else
    (st, user_workspaces)

/-- `clear_chat_history` (DELETE /api/workspaces/{ws_id}/history),
lamino.py lines 334-349. -/
def clear_chat_history (st : Store) (uid ws_id : String) : Store × Except HttpErr Bool :=
  match dictLookup st.workspaces ws_id with
  | none => (st, .error ⟨404, "Workspace not found"⟩)
  | some ws =>
    if ws.owner_id ≠ uid ∧ uid ∉ ws.members then
      (st, .error ⟨403, "Access denied"⟩)
    else
      ({ st with histories := dictInsert st.histories ws_id [] }, .ok true)

/-- `get_chat_history` (GET /api/workspaces/{ws_id}/history),
lamino.py lines 317-331 (read-only). -/
def get_chat_history (st : Store) (uid ws_id : String) : Except HttpErr (List HistMsg) :=
  match dictLookup st.workspaces ws_id with
  | none => .error ⟨404, "Workspace not found"⟩
  | some ws =>
    if ws.owner_id ≠ uid ∧ uid ∉ ws.members then
      .error ⟨403, "Access denied"⟩
    else
      .ok ((dictLookup st.histories ws_id).getD [])

/-! ## Base64 (`base64.b64encode` / `b64decode` over the stored file bytes)

Bytes are naturals below 256. -/

def b64Alphabet : List Char :=
  "ABCDEFGHIJKLMNOPQRSTUVWXYZabcdefghijklmnopqrstuvwxyz0123456789+/".data

/-- The character for a 6-bit group. -/
def encB64 (i : Nat) : Char := b64Alphabet.getD i 'A'

def decB64Aux : List Char → Char → Nat
  | [], _ => 0
  | a :: t, c => if a = c then 0 else decB64Aux t c + 1

/-- The 6-bit group for an alphabet character. -/
def decB64 (c : Char) : Nat := decB64Aux b64Alphabet c

/-- RFC 4648 base64 of a byte list, with `=` padding, as `base64.b64encode`. -/
def base64EncodeAux : List Nat → List Char
  | b0 :: b1 :: b2 :: rest =>
    encB64 (b0 / 4) :: encB64 ((b0 % 4) * 16 + b1 / 16) ::
      encB64 ((b1 % 16) * 4 + b2 / 64) :: encB64 (b2 % 64) :: base64EncodeAux rest
  | [b0, b1] =>
    [encB64 (b0 / 4), encB64 ((b0 % 4) * 16 + b1 / 16), encB64 ((b1 % 16) * 4), '=']
  | [b0] =>
    [encB64 (b0 / 4), encB64 ((b0 % 4) * 16), '=', '=']
  | [] => []

/-- Base64 decoding of a well-formed encoding, as `base64.b64decode`. -/
def base64DecodeAux : List Char → List Nat
  | c0 :: c1 :: c2 :: c3 :: rest =>
    if c3 = '=' then
      if c2 = '=' then
        [decB64 c0 * 4 + decB64 c1 / 16]
      else
        [decB64 c0 * 4 + decB64 c1 / 16, (decB64 c1 % 16) * 16 + decB64 c2 / 4]
    else
      (decB64 c0 * 4 + decB64 c1 / 16) :: ((decB64 c1 % 16) * 16 + decB64 c2 / 4) ::
        ((decB64 c2 % 4) * 64 + decB64 c3) :: base64DecodeAux rest
  | _ => []

def base64Encode (bs : List Nat) : String := String.mk (base64EncodeAux bs)

def base64Decode (s : String) : List Nat := base64DecodeAux s.data

theorem decB64_encB64 : ∀ i, i < 64 → decB64 (encB64 i) = i := by decide

theorem encB64_ne_pad : ∀ i, i < 64 → encB64 i ≠ '=' := by decide

theorem base64_roundtrip_aux :
    ∀ bs : List Nat, (∀ b ∈ bs, b < 256) → base64DecodeAux (base64EncodeAux bs) = bs
  | [], _ => rfl
  | [b0], h => by
    have hb0 : b0 < 256 := h b0 (by simp)
    simp only [base64EncodeAux, base64DecodeAux, if_true]
    rw [decB64_encB64 (b0 / 4) (by omega), decB64_encB64 ((b0 % 4) * 16) (by omega)]
    simp only [List.cons.injEq, and_true]
    omega
  | [b0, b1], h => by
    have hb0 : b0 < 256 := h b0 (by simp)
    have hb1 : b1 < 256 := h b1 (by simp)
    have hne : ¬ encB64 ((b1 % 16) * 4) = '=' := encB64_ne_pad _ (by omega)
    simp only [base64EncodeAux, base64DecodeAux, if_true]
    rw [if_neg hne]
    rw [decB64_encB64 (b0 / 4) (by omega), decB64_encB64 ((b0 % 4) * 16 + b1 / 16) (by omega),
      decB64_encB64 ((b1 % 16) * 4) (by omega)]
    simp only [List.cons.injEq, and_true]
    exact ⟨by omega, by omega⟩
  | b0 :: b1 :: b2 :: rest, h => by
    have hb0 : b0 < 256 := h b0 (by simp)
    have hb1 : b1 < 256 := h b1 (by simp)
    have hb2 : b2 < 256 := h b2 (by simp)
    have ih := base64_roundtrip_aux rest (fun b hb => h b (by simp [hb]))
    have hne : ¬ encB64 (b2 % 64) = '=' := encB64_ne_pad _ (by omega)
    simp only [base64EncodeAux, base64DecodeAux]
    rw [if_neg hne]
    rw [decB64_encB64 (b0 / 4) (by omega), decB64_encB64 ((b0 % 4) * 16 + b1 / 16) (by omega),
      decB64_encB64 ((b1 % 16) * 4 + b2 / 64) (by omega), decB64_encB64 (b2 % 64) (by omega), ih]
    simp only [List.cons.injEq, and_true]
    exact ⟨by omega, by omega, by omega⟩

theorem base64_roundtrip (bs : List Nat) (h : ∀ b ∈ bs, b < 256) :
    base64Decode (base64Encode bs) = bs :=
  base64_roundtrip_aux bs h

/-! ## File upload / retrieval (`upload_file`, `get_file`, `preview_file`) -/

/-- The index of the last occurrence of `c` in `cs`, if any. -/
def lastIdxOf (cs : List Char) (c : Char) : Option Nat :=
  match cs with
  | [] => none
  | a :: t =>
    match lastIdxOf t c with
    | some i => some (i + 1)
    | none => if a = c then some 0 else none

/-- The extension component of `os.path.splitext` (posix, sep `/`): the suffix
from the last dot, provided some non-dot character sits between the last path
separator and that dot. -/
def splitextExt (p : String) : String :=
  let cs := p.data
  let sepIndex : Int := match lastIdxOf cs '/' with | some i => (i : Int) | none => -1
  match lastIdxOf cs '.' with
  | none => ""
  | some dotIndex =>
    if sepIndex < (dotIndex : Int) then
      if (List.range dotIndex).any
          (fun fi => decide (sepIndex < (fi : Int)) && decide (cs.getD fi '.' ≠ '.')) then
        String.mk (cs.drop dotIndex)
      else ""
    else ""

/-- Python `str.lower()` (character-wise lowercasing). -/
def lowerStr (s : String) : String := String.mk (s.data.map Char.toLower)

def MAX_FILE_SIZE : Nat := 20 * 1024 * 1024

def imageExtensions : List String := [".png", ".jpg", ".jpeg", ".gif", ".webp", ".svg"]

def documentExtensions : List String :=
  [".pdf", ".doc", ".docx", ".ppt", ".pptx", ".txt", ".md", ".csv"]

def allowedExtensions : List String := imageExtensions ++ documentExtensions

/-- The `_uploaded_files` record assembled by `upload_file` on success. -/
def mkFileRecord (uid filename content_type : String) (contents : List Nat)
    (workspace_id fid now : String) : FileRecord :=
  let ext := lowerStr (splitextExt filename)
  { id := fid,
    name := filename,
    type := if ext ∈ imageExtensions then "image" else "document",
    extension := ext,
    size := contents.length,
    content_type := if content_type = "" then "application/octet-stream" else content_type,
    uploaded_by := uid,
    workspace_id := workspace_id,
    uploaded_at := now,
    data_b64 := base64Encode contents }

/-- The metadata-only summary returned by `upload_file`. -/
structure FileSummary where
  id : String
  name : String
  type : String
  extension : String
  size : Nat
deriving DecidableEq, Repr

/-- `upload_file` (POST /api/upload), lamino.py lines 396-437.  `contents` is
the uploaded byte string; `fid` the generated uuid; `now` the timestamp.
On a validation error the store is returned unchanged. -/
def upload_file (st : Store) (uid filename content_type : String) (contents : List Nat)
    (workspace_id fid now : String) : Store × Except HttpErr FileSummary :=
  let ext := lowerStr (splitextExt filename)
  if ext ∉ allowedExtensions then
    (st, .error ⟨400, "File type " ++ ext ++ " not supported"⟩)
  else if contents.length > MAX_FILE_SIZE then
    (st, .error ⟨400, "File too large (max 20MB)"⟩)
  else
    let record := mkFileRecord uid filename content_type contents workspace_id fid now
    ({ st with files := dictInsert st.files fid record },
     .ok { id := fid, name := filename, type := record.type, extension := ext,
           size := contents.length })

/-- The response of `get_file`: decoded bytes, media type, filename. -/
structure FileResponse where
  data : List Nat
  media_type : String
  filename : String
deriving DecidableEq, Repr

/-- `get_file` (GET /api/files/{file_id}), lamino.py lines 439-454.  After the
authentication gate the caller's identity is not consulted at all. -/
def get_file (st : Store) (uid file_id : String) : Except HttpErr FileResponse :=
  match dictLookup st.files file_id with
  | none => .error ⟨404, "File not found"⟩
  | some f => .ok { data := base64Decode f.data_b64, media_type := f.content_type,
                    filename := f.name }

/-- The projection returned by `preview_file`. -/
structure FilePreview where
  id : String
  name : String
  type : String
  extension : String
  size : Nat
  is_image : Bool
  data_url : Option String
deriving DecidableEq, Repr

/-- `preview_file` (GET /api/files/{file_id}/preview), lamino.py lines 457-477.
Like `get_file`, no ownership or membership check after authentication. -/
def preview_file (st : Store) (uid file_id : String) : Except HttpErr FilePreview :=
  match dictLookup st.files file_id with
  | none => .error ⟨404, "File not found"⟩
  | some f =>
    .ok { id := f.id, name := f.name, type := f.type, extension := f.extension,
          size := f.size, is_image := f.type = "image",
          data_url := if f.type = "image" then
              some ("data:" ++ f.content_type ++ ";base64," ++ f.data_b64)
            else none }

/-! ## Chat relay (`chat_completion`)

The handler is split at its unique I/O point: `chatPhase1` is everything up
to (and excluding) the upstream `httpx` call — validation, access check,
model/provider defaulting, message assembly and the history append of the
user turn; `chatPhase2` consumes an explicit upstream outcome and produces
the final store and response.  `chat_completion` composes them. -/

/-- The parsed JSON body of POST /api/chat, after each `body.get(k, default)`. -/
structure ChatBody where
  workspace_id : String := ""
  message : String := ""
  model : String := "rainymodel/auto"
  provider : String := "rainymodel"
  policy : String := "auto"
  files : List String := []
  stream : Bool := false
deriving DecidableEq, Repr

/-- A `{"role": ..., "content": ...}` entry of the outgoing messages array. -/
structure MsgRC where
  role : String
  content : String
deriving DecidableEq, Repr

/-- Python `l[-n:]`. -/
def lastN {β : Type} (l : List β) (n : Nat) : List β := l.drop (l.length - n)

/-- The file-reference block appended for attached document files
(lamino.py lines 525-532). -/
def buildFileContext (st : Store) (fids : List String) : String :=
  fids.foldl
    (fun acc fid =>
      match dictLookup st.files fid with
      | some f =>
        if f.type = "document" then
          acc ++ "\n[Attached file: " ++ f.name ++ " (" ++ f.extension ++ ")]\n"
        else acc
      | none => acc)
    ""

/-- The user-turn content sent upstream: the message, plus the attached-files
block when any attached file is a document. -/
def chatUserContent (st : Store) (body : ChatBody) : String :=
  let file_context := buildFileContext st body.files
  if file_context ≠ "" then
    body.message ++ "\n\n--- Attached Files ---" ++ file_context
  else body.message

/-- The JSON payload of the upstream chat-completions request. -/
structure ChatRequest where
  model : String
  messages : List MsgRC
  temperature : SVal
  max_tokens : SVal
  stream : Bool
deriving DecidableEq, Repr

/-- Everything `chat_completion` computes before the upstream call and still
needs afterwards. -/
structure ChatCtx where
  workspace_id : String
  model : String
  provider : String
  policy : String
  api_base : String
  api_key : String
  request : ChatRequest
deriving DecidableEq, Repr

/-- The guarded history append both `chat_completion` paths use:
`if workspace_id and workspace_id in _chat_histories:
_chat_histories[workspace_id].append(record)`. -/
def appendHistGuarded (st : Store) (k : String) (record : HistMsg) : Store :=
  if k ≠ "" ∧ k ∈ dictKeys st.histories then
    { st with histories := dictInsert st.histories k
                (((dictLookup st.histories k).getD []) ++ [record]) }
  else st

/-- Whether the caller may use the workspace: vacuously true when the id is
not in the store (`_workspaces.get` returned `None`). -/
def wsAccessOk (st : Store) (uid ws_id : String) : Bool :=
  match dictLookup st.workspaces ws_id with
  | some ws => ws.owner_id == uid || ws.members.contains uid
  | none => true

/-- Message assembly, history append of the user turn and request
construction (lamino.py lines 510-573), shared by both branches of the
workspace match. -/
def chatAssemble (cfg : Config) (st : Store) (body : ChatBody)
    (wsOpt : Option Workspace) (model provider : String) (msgId ts : String) :
    Store × ChatCtx :=
  let system_prompt := match wsOpt with
    | some ws => ws.system_prompt
    | none => ""
  let systemMsgs : List MsgRC :=
    if system_prompt ≠ "" then [{ role := "system", content := system_prompt }] else []
  let history := if body.workspace_id ≠ "" then
      (dictLookup st.histories body.workspace_id).getD []
    else []
  let histMsgs := (lastN history 20).map
    (fun m => ({ role := m.role, content := m.content } : MsgRC))
  let user_content := chatUserContent st body
  let messages := systemMsgs ++ histMsgs ++ [{ role := "user", content := user_content }]
  let user_msg_record : HistMsg :=
    { id := msgId, role := "user", content := body.message, files := body.files,
      timestamp := ts, model := model, provider := provider }
  let st1 := appendHistGuarded st body.workspace_id user_msg_record
  let settings := match wsOpt with
    | some ws => ws.settings
    | none => []
  let request : ChatRequest :=
    { model := model,
      messages := messages,
      temperature := (dictLookup settings "temperature").getD (SVal.num (7 / 10)),
      max_tokens := (dictLookup settings "max_tokens").getD (SVal.num 4096),
      stream := body.stream }
  (st1,
   { workspace_id := body.workspace_id, model := model, provider := provider,
     policy := body.policy, api_base := providerBaseUrl cfg provider,
     api_key := providerApiKey cfg provider, request := request })

/-- `chat_completion` up to the upstream call (lamino.py lines 482-575). -/
def chatPhase1 (cfg : Config) (st : Store) (uid : String) (body : ChatBody)
    (msgId ts : String) : Except HttpErr (Store × ChatCtx) :=
  if body.message = "" ∧ body.files = [] then
    .error ⟨400, "Message or files required"⟩
  else
    match (if body.workspace_id ≠ "" then dictLookup st.workspaces body.workspace_id
           else none) with
    | some ws =>
      if ws.owner_id ≠ uid ∧ uid ∉ ws.members then
        .error ⟨403, "Access denied to this workspace"⟩
      else
        let model := if body.model = "" ∨ body.model = "rainymodel/auto" then ws.model
          else body.model
        let provider := if body.provider = "" ∨ body.provider = "rainymodel" then ws.provider
          else body.provider
        .ok (chatAssemble cfg st body (some ws) model provider msgId ts)
    | none =>
      .ok (chatAssemble cfg st body none body.model body.provider msgId ts)

/-- The routing-metadata headers the upstream may attach to its response. -/
structure RMHeaders where
  route : Option String := none
  upstream : Option String := none
  model : Option String := none
  latency_ms : Option String := none
  fallback_reason : Option String := none
deriving DecidableEq, Repr

/-- The parsed upstream response body: the message content of each choice
(`none` when `message`/`content` is missing), the usage dict, and the raw
text used for non-200 error bodies. -/
structure RespBody where
  choices : List (Option String) := []
  usage : List (String × SVal) := []
  text : String := ""
deriving DecidableEq, Repr

/-- The outcome of the single upstream `httpx` call. -/
inductive UpstreamResult where
  | timeout
  | transportError (msg : String)
  | response (status : Nat) (headers : RMHeaders) (body : RespBody)
deriving DecidableEq, Repr

/-- The upstream outcomes the claim calls "failing": timeout, transport
error, or a non-200 status. -/
def UpstreamResult.isFailure : UpstreamResult → Bool
  | .timeout => true
  | .transportError _ => true
  | .response status _ _ => status != 200

/-- The non-streaming success metadata bundle. -/
structure ChatMeta where
  model_requested : String
  model_actual : String
  provider : String
  route : String
  upstream : String
  latency_ms : Nat
  policy : String
  fallback_reason : String
  decision_chain : List ChainStep
  usage : List (String × SVal)
  timestamp : String
deriving DecidableEq, Repr

/-- What POST /api/chat answers: a 4xx/5xx `HTTPException` raised before the
upstream call, an upstream-derived error `JSONResponse`, or the success body. -/
inductive ChatOutcome where
  | httpError (e : HttpErr)
  | upstreamError (status : Nat) (error provider model : String)
  | success (response : String) (meta : ChatMeta)
deriving DecidableEq, Repr

/-- `chat_completion` after the upstream call, non-streaming path
(lamino.py lines 586-666).  `latency` is the measured wall-clock delta;
`aid`/`ats` the generated id and timestamp of the assistant record. -/
def chatPhase2 (st : Store) (ctx : ChatCtx) (r : UpstreamResult)
    (latency : Nat) (aid ats : String) : Store × ChatOutcome :=
  match r with
  | .timeout => (st, .upstreamError 504 "Request timed out" ctx.provider ctx.model)
  | .transportError msg => (st, .upstreamError 502 msg ctx.provider ctx.model)
  | .response status headers rb =>
    if status ≠ 200 then
      (st, .upstreamError status (rb.text.take 500) ctx.provider ctx.model)
    else
      let assistant_content := match rb.choices with
        | [] => ""
        | c :: _ => c.getD ""
      let route := headers.route.getD ctx.provider
      let upstream := headers.upstream.getD ctx.provider
      let actual_model := headers.model.getD ctx.model
      let fallback_reason := headers.fallback_reason.getD ""
      let chain := build_decision_chain ctx.provider ctx.model route upstream
        actual_model ctx.policy fallback_reason
      let assistant_record : HistMsg :=
        { id := aid, role := "assistant", content := assistant_content,
          timestamp := ats, model := ctx.model, provider := ctx.provider,
          actual_model := some actual_model, route := some route,
          upstream := some upstream, latency_ms := some latency,
          decision_chain := chain, usage := rb.usage }
      let st1 := appendHistGuarded st ctx.workspace_id assistant_record
      (st1,
       .success assistant_content
         { model_requested := ctx.model, model_actual := actual_model,
           provider := ctx.provider, route := route, upstream := upstream,
           latency_ms := latency, policy := ctx.policy,
           fallback_reason := fallback_reason, decision_chain := chain,
           usage := rb.usage, timestamp := ats })

/-- The whole POST /api/chat handler (non-streaming path), with the upstream
outcome passed explicitly. -/
def chat_completion (cfg : Config) (st : Store) (uid : String) (body : ChatBody)
    (msgId ts : String) (r : UpstreamResult) (latency : Nat) (aid ats : String) :
    Store × ChatOutcome :=
  match chatPhase1 cfg st uid body msgId ts with
  | .error e => (st, .httpError e)
  | .ok (st1, ctx) => chatPhase2 st1 ctx r latency aid ats

/-- The history bookkeeping at the end of `_stream_chat_response`
(lamino.py lines 737-751): append the accumulated assistant text, guarded by
the same membership test as the non-streaming path. -/
def streamStoreAssistant (st : Store) (ctx : ChatCtx) (full_content : String)
    (route upstream actual_model fallback_reason : String) (latency : Nat)
    (aid ats : String) : Store :=
  let chain := build_decision_chain ctx.provider ctx.model route upstream
    actual_model ctx.policy fallback_reason
  let assistant_record : HistMsg :=
    { id := aid, role := "assistant", content := full_content, timestamp := ats,
      model := ctx.model, provider := ctx.provider,
      actual_model := some actual_model, route := some route,
      upstream := some upstream, latency_ms := some latency,
      decision_chain := chain }
  appendHistGuarded st ctx.workspace_id assistant_record

/-! ## Shared concrete fixtures -/

/-- The empty store (fresh process). -/
def st0 : Store := { workspaces := [], histories := [], files := [] }

/-- The default environment configuration. -/
def cfg0 : Config := {}

/-! ## Claim C1 -/

/-- C1: the claim is false on both verifiers.  With no shared secret
configured, Lamino's `_verify_sso_token` still yields unauthenticated for the
empty token, and the console's `_is_authenticated_token` rejects a non-empty
token. -/
theorem c1_counterexample :
    verify_sso_token "" (fun _ => none) "" = none ∧
    is_authenticated_token "" (fun _ => true) "token123" = false :=
  ⟨rfl, rfl⟩

/-- C1 (amended): with no shared secret configured, `_verify_sso_token`
returns the fixed development identity exactly for non-empty tokens (the
empty token resolves to unauthenticated), while `_is_authenticated_token`
accepts exactly the empty token (every non-empty token is rejected without
contacting the provider). -/
theorem c1_amended_no_secret_resolution (userinfo : String → Option SsoUser)
    (verify : String → Bool) (token : String) :
    verify_sso_token "" userinfo token = (if token = "" then none else some devUser) ∧
    is_authenticated_token "" verify token = (if token = "" then true else false) := by
  refine ⟨?_, ?_⟩ <;>
    by_cases h : token = "" <;>
    simp [verify_sso_token, is_authenticated_token, h]

/-! ## Claim C6 -/

/-- C6: decision-chain synthesis is a pure function of its seven string
arguments; on the documented example it returns exactly the four steps, and
in general the step numbers are sequential from 1. -/
theorem c6_decision_chain :
    build_decision_chain "rainymodel" "rainymodel/auto" "rainymodel" "ollama"
        "llama3.1:8b" "auto" "" =
      [⟨1, "User Request", "Model: rainymodel/auto, Policy: auto", "request"⟩,
       ⟨2, "RainyModel Router", "Policy: auto, Route: rainymodel", "router"⟩,
       ⟨3, "Ollama (Self-hosted)", "Upstream: ollama", "upstream"⟩,
       ⟨4, "Model: llama3.1:8b", "Final model execution", "model"⟩] ∧
    ∀ provider model_requested route upstream actual_model policy fallback_reason,
      (build_decision_chain provider model_requested route upstream actual_model
          policy fallback_reason).map ChainStep.step =
        List.range' 1 (build_decision_chain provider model_requested route upstream
          actual_model policy fallback_reason).length := by
  constructor
  · decide
  · intro p m r u a po f
    by_cases hc : p = "rainymodel" ∨ containsSub m.data "rainymodel".data
    · simp [build_decision_chain, hc, List.range']
    · simp [build_decision_chain, hc, List.range']

/-! ## Claim C7 -/

/-- C7: upload validation checks the extension first and the size second, and
a rejected upload leaves the store untouched.  A disallowed extension is
rejected whatever the contents; an allowed extension over the cap is rejected
with the size error. -/
theorem c7_upload_validation_order (st : Store) (uid content_type workspace_id fid now : String) :
    (∀ (filename : String) (contents : List Nat),
      lowerStr (splitextExt filename) ∉ allowedExtensions →
      upload_file st uid filename content_type contents workspace_id fid now =
        (st, .error ⟨400, "File type " ++ lowerStr (splitextExt filename) ++
          " not supported"⟩)) ∧
    (∀ (filename : String) (contents : List Nat),
      lowerStr (splitextExt filename) ∈ allowedExtensions →
      contents.length > MAX_FILE_SIZE →
      upload_file st uid filename content_type contents workspace_id fid now =
        (st, .error ⟨400, "File too large (max 20MB)"⟩)) := by
  constructor
  · intro filename contents h
    simp [upload_file, h]
  · intro filename contents h hlen
    simp [upload_file, h, hlen]

/-- C7 witness: a `.exe` upload of any size gets the type error; a 21 MiB
`.png` upload gets the size error; the (empty) store is unchanged in both. -/
theorem c7_witness :
    upload_file st0 "alice" "malware.exe" "application/x-dos" [0, 1, 2] "" "f1" "t1" =
      (st0, .error ⟨400, "File type " ++ lowerStr (splitextExt "malware.exe") ++
        " not supported"⟩) ∧
    upload_file st0 "alice" "big.png" "image/png" (List.replicate (21 * 1024 * 1024) 0)
        "" "f2" "t2" =
      (st0, .error ⟨400, "File too large (max 20MB)"⟩) := by
  constructor
  · exact (c7_upload_validation_order st0 "alice" "application/x-dos" "" "f1" "t1").1
      "malware.exe" [0, 1, 2] (by decide)
  · exact (c7_upload_validation_order st0 "alice" "image/png" "" "f2" "t2").2
      "big.png" (List.replicate (21 * 1024 * 1024) 0) (by decide)
      (by rw [List.length_replicate]; decide)

/-! ## Claim C9 -/

/-- C9: file retrieval checks only authentication.  After any successful
upload, ANY caller (quantified `caller`, unrelated to the uploader and to the
file's workspace) gets the full decoded bytes from the raw endpoint and the
metadata (with the inline data URL for images) from the preview endpoint. -/
theorem c9_file_retrieval_no_ownership_check
    (st : Store) (uploader filename content_type workspace_id fid now : String)
    (contents : List Nat)
    (hbytes : ∀ b ∈ contents, b < 256)
    (hext : lowerStr (splitextExt filename) ∈ allowedExtensions)
    (hsize : ¬ contents.length > MAX_FILE_SIZE) :
    ∀ caller : String,
      get_file (upload_file st uploader filename content_type contents
            workspace_id fid now).1 caller fid =
        .ok { data := contents,
              media_type := if content_type = "" then "application/octet-stream"
                else content_type,
              filename := filename } ∧
      preview_file (upload_file st uploader filename content_type contents
            workspace_id fid now).1 caller fid =
        .ok { id := fid, name := filename,
              type := if lowerStr (splitextExt filename) ∈ imageExtensions then "image"
                else "document",
              extension := lowerStr (splitextExt filename),
              size := contents.length,
              is_image := (if lowerStr (splitextExt filename) ∈ imageExtensions then "image"
                else "document") = "image",
              data_url := if (if lowerStr (splitextExt filename) ∈ imageExtensions then "image"
                  else "document") = "image" then
                  some ("data:" ++ (if content_type = "" then "application/octet-stream"
                    else content_type) ++ ";base64," ++ base64Encode contents)
                else none } := by
  intro caller
  have hupload : (upload_file st uploader filename content_type contents
      workspace_id fid now).1 =
      { st with files := dictInsert st.files fid
                  (mkFileRecord uploader filename content_type contents
                    workspace_id fid now) } := by
    simp [upload_file, hext, hsize]
  rw [hupload]
  constructor
  · simp [get_file, mkFileRecord, dictLookup_dictInsert, base64_roundtrip contents hbytes]
  · simp [preview_file, mkFileRecord, dictLookup_dictInsert]

/-- C9 witness: "alice" uploads a small png; "mallory" retrieves bytes and
preview successfully. -/
theorem c9_witness :
    get_file (upload_file st0 "alice" "pic.png" "image/png" [137, 80, 78]
          "wsX" "f9" "t9").1 "mallory" "f9" =
      .ok { data := [137, 80, 78], media_type := "image/png", filename := "pic.png" } ∧
    preview_file (upload_file st0 "alice" "pic.png" "image/png" [137, 80, 78]
          "wsX" "f9" "t9").1 "mallory" "f9" =
      .ok { id := "f9", name := "pic.png", type := "image", extension := ".png",
            size := 3, is_image := true,
            data_url := some ("data:image/png;base64," ++ base64Encode [137, 80, 78]) } := by
  have h := c9_file_retrieval_no_ownership_check st0 "alice" "pic.png" "image/png"
    "wsX" "f9" "t9" [137, 80, 78] (by decide) (by decide) (by decide) "mallory"
  exact h

/-! ## Claim C3 -/

/-- C3: a workspace update by an owner or member keeps every field absent
from the payload (and the immutable fields) unchanged, merges the settings
dict key-by-key instead of replacing it, stamps `updated_at`, and touches no
other workspace. -/
theorem c3_update_frame_and_settings_merge
    (st : Store) (uid ws_id now : String) (body : UpdatePayload) (ws : Workspace)
    (hws : dictLookup st.workspaces ws_id = some ws)
    (hacc : ws.owner_id = uid ∨ uid ∈ ws.members) :
    ∃ ws' : Workspace,
      update_workspace st uid ws_id body now =
        ({ st with workspaces := dictInsert st.workspaces ws_id ws' }, .ok ws') ∧
      (body.name = none → ws'.name = ws.name) ∧
      (body.description = none → ws'.description = ws.description) ∧
      (body.model = none → ws'.model = ws.model) ∧
      (body.provider = none → ws'.provider = ws.provider) ∧
      (body.system_prompt = none → ws'.system_prompt = ws.system_prompt) ∧
      (body.members = none → ws'.members = ws.members) ∧
      ws'.id = ws.id ∧ ws'.owner_id = ws.owner_id ∧ ws'.owner_name = ws.owner_name ∧
      ws'.created_at = ws.created_at ∧
      (body.settings = none → ws'.settings = ws.settings) ∧
      (∀ s, body.settings = some s → (s.map Prod.fst).Nodup →
        ∀ k, dictLookup ws'.settings k =
          (dictLookup s k).orElse (fun _ => dictLookup ws.settings k)) ∧
      ws'.updated_at = now ∧
      (∀ k, k ≠ ws_id →
        dictLookup (update_workspace st uid ws_id body now).1.workspaces k =
          dictLookup st.workspaces k) := by
  have hna : ¬ (ws.owner_id ≠ uid ∧ uid ∉ ws.members) := by
    rcases hacc with h | h
    · exact fun hc => hc.1 h
    · exact fun hc => hc.2 h
  have heq : update_workspace st uid ws_id body now =
      ({ st with workspaces := dictInsert st.workspaces ws_id
                   (applyWorkspaceUpdate ws body now) },
       .ok (applyWorkspaceUpdate ws body now)) := by
    simp only [update_workspace, hws, if_neg hna]
  refine ⟨applyWorkspaceUpdate ws body now, heq, ?_, ?_, ?_, ?_, ?_, ?_, rfl, rfl, rfl, rfl,
    ?_, ?_, rfl, ?_⟩
  · intro h; simp [applyWorkspaceUpdate, h]
  · intro h; simp [applyWorkspaceUpdate, h]
  · intro h; simp [applyWorkspaceUpdate, h]
  · intro h; simp [applyWorkspaceUpdate, h]
  · intro h; simp [applyWorkspaceUpdate, h]
  · intro h; simp [applyWorkspaceUpdate, h]
  · intro h; simp [applyWorkspaceUpdate, h]
  · intro s hs hnd k
    simp only [applyWorkspaceUpdate, hs]
    exact dictLookup_dictUpdate _ _ _ hnd
  · intro k hk
    rw [heq]
    simp only []
    rw [dictLookup_dictInsert]
    exact if_neg (Ne.symm hk)

/-- A concrete workspace fixture: owner `alice`, member `bob`. -/
def wsW : Workspace :=
  { id := "w1", name := "Alpha", description := "", owner_id := "alice",
    owner_name := "Alice", members := ["bob"], model := "rainymodel/auto",
    provider := "rainymodel", system_prompt := "", created_at := "t0",
    updated_at := "t0",
    settings := [("temperature", SVal.num (7 / 10)), ("max_tokens", SVal.num 4096),
      ("policy", SVal.s "auto")] }

/-- A store holding just `wsW` and its (empty) history. -/
def stW : Store := { workspaces := [("w1", wsW)], histories := [("w1", [])], files := [] }

/-- The C3 witness payload: only `name` and a partial `settings` dict. -/
def bodyU : UpdatePayload :=
  { name := some "Beta", settings := some [("policy", SVal.s "premium")] }

/-- C3 witness: member `bob` updates `wsW` with `bodyU`. -/
theorem c3_witness :
    ∃ ws' : Workspace,
      update_workspace stW "bob" "w1" bodyU "t2" =
        ({ stW with workspaces := dictInsert stW.workspaces "w1" ws' }, .ok ws') ∧
      (bodyU.name = none → ws'.name = wsW.name) ∧
      (bodyU.description = none → ws'.description = wsW.description) ∧
      (bodyU.model = none → ws'.model = wsW.model) ∧
      (bodyU.provider = none → ws'.provider = wsW.provider) ∧
      (bodyU.system_prompt = none → ws'.system_prompt = wsW.system_prompt) ∧
      (bodyU.members = none → ws'.members = wsW.members) ∧
      ws'.id = wsW.id ∧ ws'.owner_id = wsW.owner_id ∧ ws'.owner_name = wsW.owner_name ∧
      ws'.created_at = wsW.created_at ∧
      (bodyU.settings = none → ws'.settings = wsW.settings) ∧
      (∀ s, bodyU.settings = some s → (s.map Prod.fst).Nodup →
        ∀ k, dictLookup ws'.settings k =
          (dictLookup s k).orElse (fun _ => dictLookup wsW.settings k)) ∧
      ws'.updated_at = "t2" ∧
      (∀ k, k ≠ "w1" →
        dictLookup (update_workspace stW "bob" "w1" bodyU "t2").1.workspaces k =
          dictLookup stW.workspaces k) :=
  c3_update_frame_and_settings_merge stW "bob" "w1" "t2" bodyU wsW rfl
    (Or.inr (List.mem_cons_self "bob" []))

/-! ## Claim C4 -/

/-- C4: for a caller who owns and belongs to no workspace, listing twice
returns the same single default workspace both times, keyed by the hash of
the user id.  `hwf` states the store's key/`id` coherence, which every write
path establishes. -/
theorem c4_list_idempotent_default (h : String → String) (st : Store)
    (uid uname now1 now2 : String)
    (hnone : userWorkspaces st uid = [])
    (hwf : ∀ p ∈ st.workspaces, (Prod.snd p).id = Prod.fst p) :
    ∃ w : Workspace,
      (list_workspaces h st uid uname now1).2 = [w] ∧
      (list_workspaces h (list_workspaces h st uid uname now1).1 uid uname now2).2 = [w] ∧
      w.id = h ("default-" ++ uid) := by
  cases hl : dictLookup st.workspaces (h ("default-" ++ uid)) with
  | some w0 =>
    have hid : w0.id = h ("default-" ++ uid) := hwf _ (mem_of_dictLookup_eq_some _ _ _ hl)
    have hcd1 : create_default_workspace h st uid uname now1 = (st, w0) := by
      simp only [create_default_workspace, hl]
    have hcd2 : create_default_workspace h st uid uname now2 = (st, w0) := by
      simp only [create_default_workspace, hl]
    have h1 : list_workspaces h st uid uname now1 = (st, [w0]) := by
      simp only [list_workspaces, hnone, List.isEmpty_nil, if_true, hcd1]
    have h2 : list_workspaces h st uid uname now2 = (st, [w0]) := by
      simp only [list_workspaces, hnone, List.isEmpty_nil, if_true, hcd2]
    exact ⟨w0, by simp [h1], by simp [h1, h2], hid⟩
  | none =>
    have hnotin : h ("default-" ++ uid) ∉ dictKeys st.workspaces :=
      (dictLookup_eq_none_iff _ _).mp hl
    have hcd1 : create_default_workspace h st uid uname now1 =
        ({ st with
            workspaces := dictInsert st.workspaces (h ("default-" ++ uid))
              (mkDefaultWorkspace uid uname now1 (h ("default-" ++ uid))),
            histories := dictInsert st.histories (h ("default-" ++ uid)) [] },
         mkDefaultWorkspace uid uname now1 (h ("default-" ++ uid))) := by
      simp only [create_default_workspace, hl]
    have h1 : list_workspaces h st uid uname now1 =
        ({ st with
            workspaces := dictInsert st.workspaces (h ("default-" ++ uid))
              (mkDefaultWorkspace uid uname now1 (h ("default-" ++ uid))),
            histories := dictInsert st.histories (h ("default-" ++ uid)) [] },
         [mkDefaultWorkspace uid uname now1 (h ("default-" ++ uid))]) := by
      simp only [list_workspaces, hnone, List.isEmpty_nil, if_true, hcd1]
    have huser2 : userWorkspaces
        { st with
            workspaces := dictInsert st.workspaces (h ("default-" ++ uid))
              (mkDefaultWorkspace uid uname now1 (h ("default-" ++ uid))),
            histories := dictInsert st.histories (h ("default-" ++ uid)) [] } uid =
        [mkDefaultWorkspace uid uname now1 (h ("default-" ++ uid))] := by
      have hw : dictInsert st.workspaces (h ("default-" ++ uid))
          (mkDefaultWorkspace uid uname now1 (h ("default-" ++ uid))) =
          st.workspaces ++
            [(h ("default-" ++ uid), mkDefaultWorkspace uid uname now1 (h ("default-" ++ uid)))] :=
        dictInsert_of_not_mem _ _ _ hnotin
      have hfil := hnone
      simp only [userWorkspaces] at hfil ⊢
      rw [hw, List.map_append, List.filter_append, hfil]
      simp [mkDefaultWorkspace]
    have h2 : list_workspaces h
        { st with
            workspaces := dictInsert st.workspaces (h ("default-" ++ uid))
              (mkDefaultWorkspace uid uname now1 (h ("default-" ++ uid))),
            histories := dictInsert st.histories (h ("default-" ++ uid)) [] }
        uid uname now2 =
        ({ st with
            workspaces := dictInsert st.workspaces (h ("default-" ++ uid))
              (mkDefaultWorkspace uid uname now1 (h ("default-" ++ uid))),
            histories := dictInsert st.histories (h ("default-" ++ uid)) [] },
         [mkDefaultWorkspace uid uname now1 (h ("default-" ++ uid))]) := by
      simp only [list_workspaces, huser2]
      simp
    refine ⟨mkDefaultWorkspace uid uname now1 (h ("default-" ++ uid)),
      by simp [h1], ?_, rfl⟩
    rw [h1]
    simp only []
    rw [h2]

/-- C4 witness: a fresh store, identity hash, user `carol`. -/
theorem c4_witness :
    ∃ w : Workspace,
      (list_workspaces id st0 "carol" "Carol" "t1").2 = [w] ∧
      (list_workspaces id (list_workspaces id st0 "carol" "Carol" "t1").1
        "carol" "Carol" "t2").2 = [w] ∧
      w.id = id ("default-" ++ "carol") :=
  c4_list_idempotent_default id st0 "carol" "Carol" "t1" "t2" (by decide)
    (by intro p hp; simp [st0] at hp)

/-! ## Claim C8 -/

/-- The invariant: every chat-history key is a workspace key. -/
def StoreInv (st : Store) : Prop :=
  ∀ k ∈ dictKeys st.histories, k ∈ dictKeys st.workspaces

theorem storeInv_insertBoth (st : Store) (hinv : StoreInv st) (k : String)
    (w : Workspace) (l : List HistMsg) :
    StoreInv { st with workspaces := dictInsert st.workspaces k w,
                       histories := dictInsert st.histories k l } := by
  intro k' hk'
  rw [mem_dictKeys_dictInsert] at hk' ⊢
  rcases hk' with hk' | hk'
  · exact Or.inl hk'
  · exact Or.inr (hinv _ hk')

theorem storeInv_removeBoth (st : Store) (hinv : StoreInv st) (k : String) :
    StoreInv { st with workspaces := dictRemove st.workspaces k,
                       histories := dictRemove st.histories k } := by
  intro k' hk'
  rw [mem_dictKeys_dictRemove] at hk' ⊢
  exact ⟨hinv _ hk'.1, hk'.2⟩

theorem storeInv_insertHist (st : Store) (hinv : StoreInv st) (k : String)
    (l : List HistMsg) (hk : k ∈ dictKeys st.workspaces) :
    StoreInv { st with histories := dictInsert st.histories k l } := by
  intro k' hk'
  rw [mem_dictKeys_dictInsert] at hk'
  rcases hk' with hk' | hk'
  · exact hk' ▸ hk
  · exact hinv _ hk'

theorem storeInv_appendHistGuarded (st : Store) (hinv : StoreInv st) (k : String)
    (record : HistMsg) : StoreInv (appendHistGuarded st k record) := by
  unfold appendHistGuarded
  by_cases hc : k ≠ "" ∧ k ∈ dictKeys st.histories
  · rw [if_pos hc]
    exact storeInv_insertHist st hinv k _ (hinv _ hc.2)
  · rw [if_neg hc]
    exact hinv

theorem storeInv_chatAssemble (cfg : Config) (st : Store) (body : ChatBody)
    (wsOpt : Option Workspace) (model provider msgId ts : String)
    (hinv : StoreInv st) :
    StoreInv (chatAssemble cfg st body wsOpt model provider msgId ts).1 :=
  storeInv_appendHistGuarded st hinv _ _

/-- C8: every store operation preserves the invariant that each history key
names an existing workspace: creation (explicit or lazy default) installs
both entries, deletion removes both, and the remaining operations never add a
history key without its workspace. -/
theorem c8_history_key_invariant (st : Store) (h : String → String)
    (uid uname ws_id now fid msgId ts filename content_type wsf : String)
    (cb : CreateBody) (ub : UpdatePayload) (body : ChatBody) (cfg : Config)
    (contents : List Nat) (ctx : ChatCtx) (r : UpstreamResult) (latency : Nat)
    (aid ats full_content route upstream actual_model fallback_reason : String)
    (hinv : StoreInv st) :
    StoreInv (create_workspace st uid uname cb ws_id now).1 ∧
    StoreInv (delete_workspace st uid ws_id).1 ∧
    StoreInv (create_default_workspace h st uid uname now).1 ∧
    StoreInv (list_workspaces h st uid uname now).1 ∧
    StoreInv (update_workspace st uid ws_id ub now).1 ∧
    StoreInv (clear_chat_history st uid ws_id).1 ∧
    StoreInv (upload_file st uid filename content_type contents wsf fid now).1 ∧
    (∀ st1 c, chatPhase1 cfg st uid body msgId ts = .ok (st1, c) → StoreInv st1) ∧
    StoreInv (chatPhase2 st ctx r latency aid ats).1 ∧
    StoreInv (streamStoreAssistant st ctx full_content route upstream actual_model
      fallback_reason latency aid ats) := by
  have hdefault : StoreInv (create_default_workspace h st uid uname now).1 := by
    cases hl : dictLookup st.workspaces (h ("default-" ++ uid)) with
    | some w =>
      simp only [create_default_workspace, hl]
      exact hinv
    | none =>
      simp only [create_default_workspace, hl]
      exact storeInv_insertBoth st hinv _ _ _
  refine ⟨?_, ?_, hdefault, ?_, ?_, ?_, ?_, ?_, ?_, ?_⟩
  · exact storeInv_insertBoth st hinv _ _ _
  · cases hl : dictLookup st.workspaces ws_id with
    | none =>
      simp only [delete_workspace, hl]
      exact hinv
    | some w =>
      simp only [delete_workspace, hl]
      by_cases ho : w.owner_id ≠ uid
      · rw [if_pos ho]; exact hinv
      · rw [if_neg ho]; exact storeInv_removeBoth st hinv ws_id
  · by_cases he : (userWorkspaces st uid).isEmpty
    · simp only [list_workspaces, if_pos he]
      exact hdefault
    · simp only [list_workspaces, if_neg he]
      exact hinv
  · cases hl : dictLookup st.workspaces ws_id with
    | none =>
      simp only [update_workspace, hl]
      exact hinv
    | some w =>
      simp only [update_workspace, hl]
      by_cases ha : w.owner_id ≠ uid ∧ uid ∉ w.members
      · rw [if_pos ha]; exact hinv
      · rw [if_neg ha]
        intro k' hk'
        rw [mem_dictKeys_dictInsert]
        exact Or.inr (hinv _ hk')
  · cases hl : dictLookup st.workspaces ws_id with
    | none =>
      simp only [clear_chat_history, hl]
      exact hinv
    | some w =>
      simp only [clear_chat_history, hl]
      by_cases ha : w.owner_id ≠ uid ∧ uid ∉ w.members
      · rw [if_pos ha]; exact hinv
      · rw [if_neg ha]
        refine storeInv_insertHist st hinv ws_id [] ?_
        rw [mem_dictKeys_iff_lookup, hl]
        simp
  · by_cases h1 : lowerStr (splitextExt filename) ∉ allowedExtensions
    · simp only [upload_file, if_pos h1]
      exact hinv
    · simp only [upload_file, if_neg h1]
      by_cases h2 : contents.length > MAX_FILE_SIZE
      · rw [if_pos h2]; exact hinv
      · rw [if_neg h2]; exact hinv
  · intro st1 c hok
    by_cases hv : body.message = "" ∧ body.files = []
    · simp only [chatPhase1, if_pos hv] at hok
      exact absurd hok (by simp)
    · simp only [chatPhase1, if_neg hv] at hok
      cases hw : (if body.workspace_id ≠ "" then dictLookup st.workspaces body.workspace_id
          else none) with
      | some w =>
        simp only [hw] at hok
        by_cases ha : w.owner_id ≠ uid ∧ uid ∉ w.members
        · rw [if_pos ha] at hok
          exact absurd hok (by simp)
        · rw [if_neg ha] at hok
          simp only [Except.ok.injEq] at hok
          have h1 : (chatAssemble cfg st body (some w)
              (if body.model = "" ∨ body.model = "rainymodel/auto" then w.model else body.model)
              (if body.provider = "" ∨ body.provider = "rainymodel" then w.provider
                else body.provider) msgId ts).1 = st1 :=
            congrArg Prod.fst hok
          exact h1 ▸ storeInv_chatAssemble cfg st body (some w) _ _ msgId ts hinv
      | none =>
        simp only [hw] at hok
        simp only [Except.ok.injEq] at hok
        have h1 : (chatAssemble cfg st body none body.model body.provider msgId ts).1 = st1 :=
          congrArg Prod.fst hok
        exact h1 ▸ storeInv_chatAssemble cfg st body none _ _ msgId ts hinv
  · cases r with
    | timeout => exact hinv
    | transportError m => exact hinv
    | response status headers rb =>
      by_cases hs : status ≠ 200
      · simp only [chatPhase2, if_pos hs]
        exact hinv
      · simp only [chatPhase2, if_neg hs]
        exact storeInv_appendHistGuarded st hinv _ _
  · exact storeInv_appendHistGuarded st hinv _ _

/-- C8 witness: the invariant holds of the empty store and is preserved by a
concrete workspace creation there. -/
theorem c8_witness :
    StoreInv (create_workspace st0 "alice" "Alice" {} "w1" "t1").1 :=
  (c8_history_key_invariant st0 id "alice" "Alice" "w1" "t1" "f1" "m1" "ts" "a.png"
    "image/png" "" {} {} {} {} []
    { workspace_id := "", model := "m", provider := "p", policy := "auto",
      api_base := "", api_key := "",
      request := { model := "m", messages := [], temperature := SVal.num 1,
                   max_tokens := SVal.num 1, stream := false } }
    .timeout 0 "a1" "ts2" "" "" "" "" ""
    (by intro k hk; simp [st0, dictKeys] at hk)).1

/-! ## Claim C5 -/

theorem lookup_appendHistGuarded_self (st : Store) (k : String) (record : HistMsg)
    (old : List HistMsg) (hk : k ≠ "") (hl : dictLookup st.histories k = some old) :
    dictLookup (appendHistGuarded st k record).histories k = some (old ++ [record]) := by
  have hmem : k ∈ dictKeys st.histories := by
    rw [mem_dictKeys_iff_lookup, hl]; simp
  simp only [appendHistGuarded, if_pos (And.intro hk hmem)]
  rw [dictLookup_dictInsert, if_pos rfl, hl]
  rfl

theorem chatPhase2_fst_of_failure (st : Store) (ctx : ChatCtx) (r : UpstreamResult)
    (latency : Nat) (aid ats : String) (hr : r.isFailure = true) :
    (chatPhase2 st ctx r latency aid ats).1 = st := by
  cases r with
  | timeout => rfl
  | transportError m => rfl
  | response status headers rb =>
    have hs : status ≠ 200 := by simpa [UpstreamResult.isFailure] using hr
    simp only [chatPhase2, if_pos hs]

theorem lookup_chatAssemble_fst (cfg : Config) (st : Store) (body : ChatBody)
    (wsOpt : Option Workspace) (m p msgId ts : String) (old : List HistMsg)
    (hwsid : body.workspace_id ≠ "")
    (hhist : dictLookup st.histories body.workspace_id = some old) :
    dictLookup (chatAssemble cfg st body wsOpt m p msgId ts).1.histories body.workspace_id =
      some (old ++ [{ id := msgId, role := "user", content := body.message,
                      files := body.files, timestamp := ts, model := m,
                      provider := p }]) :=
  lookup_appendHistGuarded_self st body.workspace_id _ old hwsid hhist

/-- C5: when the chat body names a workspace id that is a key of the history
store, the user turn is appended during `chatPhase1` — before the upstream
call — so it is still recorded after any failing upstream outcome (timeout,
transport error, or non-200 status). -/
theorem c5_user_turn_appended_before_upstream (cfg : Config) (st : Store)
    (uid : String) (body : ChatBody) (msgId ts : String) (old : List HistMsg)
    (hv : ¬ (body.message = "" ∧ body.files = []))
    (hwsid : body.workspace_id ≠ "")
    (hhist : dictLookup st.histories body.workspace_id = some old)
    (hacc : wsAccessOk st uid body.workspace_id = true) :
    ∃ (st1 : Store) (ctx : ChatCtx) (m p : String),
      chatPhase1 cfg st uid body msgId ts = .ok (st1, ctx) ∧
      dictLookup st1.histories body.workspace_id =
        some (old ++ [{ id := msgId, role := "user", content := body.message,
                        files := body.files, timestamp := ts, model := m,
                        provider := p }]) ∧
      ∀ (r : UpstreamResult) (latency : Nat) (aid ats : String),
        r.isFailure = true →
        dictLookup (chat_completion cfg st uid body msgId ts r latency
            aid ats).1.histories body.workspace_id =
          some (old ++ [{ id := msgId, role := "user", content := body.message,
                          files := body.files, timestamp := ts, model := m,
                          provider := p }]) := by
  cases hlw : dictLookup st.workspaces body.workspace_id with
  | some w =>
    have hacc' : ¬ (w.owner_id ≠ uid ∧ uid ∉ w.members) := by
      simp [wsAccessOk, hlw] at hacc
      rcases hacc with h | h
      · exact fun hc => hc.1 h
      · exact fun hc => hc.2 h
    have hph1 : chatPhase1 cfg st uid body msgId ts =
        .ok (chatAssemble cfg st body (some w)
          (if body.model = "" ∨ body.model = "rainymodel/auto" then w.model else body.model)
          (if body.provider = "" ∨ body.provider = "rainymodel" then w.provider
            else body.provider) msgId ts) := by
      unfold chatPhase1
      rw [if_neg hv, if_pos hwsid]
      simp only [hlw]
      rw [if_neg hacc']
    refine ⟨_, _, _, _, hph1, lookup_chatAssemble_fst cfg st body (some w) _ _ msgId ts
      old hwsid hhist, ?_⟩
    intro r latency aid ats hr
    have hcc : chat_completion cfg st uid body msgId ts r latency aid ats =
        chatPhase2 (chatAssemble cfg st body (some w)
          (if body.model = "" ∨ body.model = "rainymodel/auto" then w.model else body.model)
          (if body.provider = "" ∨ body.provider = "rainymodel" then w.provider
            else body.provider) msgId ts).1
          (chatAssemble cfg st body (some w)
            (if body.model = "" ∨ body.model = "rainymodel/auto" then w.model else body.model)
            (if body.provider = "" ∨ body.provider = "rainymodel" then w.provider
              else body.provider) msgId ts).2 r latency aid ats := by
      simp only [chat_completion, hph1]
    rw [hcc, chatPhase2_fst_of_failure _ _ _ _ _ _ hr]
    exact lookup_chatAssemble_fst cfg st body (some w) _ _ msgId ts old hwsid hhist
  | none =>
    have hph1 : chatPhase1 cfg st uid body msgId ts =
        .ok (chatAssemble cfg st body none body.model body.provider msgId ts) := by
      unfold chatPhase1
      rw [if_neg hv, if_pos hwsid]
      simp only [hlw]
    refine ⟨_, _, _, _, hph1, lookup_chatAssemble_fst cfg st body none _ _ msgId ts
      old hwsid hhist, ?_⟩
    intro r latency aid ats hr
    have hcc : chat_completion cfg st uid body msgId ts r latency aid ats =
        chatPhase2 (chatAssemble cfg st body none body.model body.provider msgId ts).1
          (chatAssemble cfg st body none body.model body.provider msgId ts).2
          r latency aid ats := by
      simp only [chat_completion, hph1]
    rw [hcc, chatPhase2_fst_of_failure _ _ _ _ _ _ hr]
    exact lookup_chatAssemble_fst cfg st body none _ _ msgId ts old hwsid hhist

/-- C5 witness: `alice` chats in `w1` (history key present, initially empty)
and the upstream call times out; the user turn is recorded anyway. -/
theorem c5_witness :
    ∃ (st1 : Store) (ctx : ChatCtx) (m p : String),
      chatPhase1 cfg0 stW "alice" { workspace_id := "w1", message := "hello" }
        "m1" "t1" = .ok (st1, ctx) ∧
      dictLookup st1.histories "w1" =
        some ([] ++ [{ id := "m1", role := "user", content := "hello",
                       files := [], timestamp := "t1", model := m,
                       provider := p }]) ∧
      ∀ (r : UpstreamResult) (latency : Nat) (aid ats : String),
        r.isFailure = true →
        dictLookup (chat_completion cfg0 stW "alice"
            { workspace_id := "w1", message := "hello" } "m1" "t1" r latency
            aid ats).1.histories "w1" =
          some ([] ++ [{ id := "m1", role := "user", content := "hello",
                         files := [], timestamp := "t1", model := m,
                         provider := p }]) :=
  c5_user_turn_appended_before_upstream cfg0 stW "alice"
    { workspace_id := "w1", message := "hello" } "m1" "t1" []
    (by decide) (by decide) rfl rfl

/-! ## Claim C10 -/

theorem chatPhase2_ne_httpError (st : Store) (ctx : ChatCtx) (r : UpstreamResult)
    (latency : Nat) (aid ats : String) (e : HttpErr) :
    (chatPhase2 st ctx r latency aid ats).2 ≠ .httpError e := by
  cases r with
  | timeout => simp [chatPhase2]
  | transportError m => simp [chatPhase2]
  | response status headers rb =>
    by_cases hs : status ≠ 200
    · simp [chatPhase2, hs]
    · simp [chatPhase2, hs]

/-- C10: a chat call naming a non-empty workspace id that is not a key of the
workspace store is neither rejected with not-found nor with forbidden: it
proceeds as with no workspace (single user message, no system prompt, no
history context, default temperature and max_tokens, caller's model, provider
and policy), and the store — in particular every history list — is left
completely unchanged by the whole call, whatever the upstream outcome. -/
theorem c10_unknown_workspace_passthrough (cfg : Config) (st : Store) (uid : String)
    (body : ChatBody) (msgId ts : String)
    (hv : ¬ (body.message = "" ∧ body.files = []))
    (hwsid : body.workspace_id ≠ "")
    (hlw : dictLookup st.workspaces body.workspace_id = none)
    (hinv : StoreInv st) :
    ∃ ctx : ChatCtx,
      chatPhase1 cfg st uid body msgId ts = .ok (st, ctx) ∧
      ctx.request.messages = [{ role := "user", content := chatUserContent st body }] ∧
      ctx.request.temperature = SVal.num (7 / 10) ∧
      ctx.request.max_tokens = SVal.num 4096 ∧
      ctx.model = body.model ∧ ctx.provider = body.provider ∧ ctx.policy = body.policy ∧
      ∀ (r : UpstreamResult) (latency : Nat) (aid ats : String),
        (chat_completion cfg st uid body msgId ts r latency aid ats).1 = st ∧
        ∀ e : HttpErr,
          (chat_completion cfg st uid body msgId ts r latency aid ats).2 ≠ .httpError e := by
  have hnokey : body.workspace_id ∉ dictKeys st.histories := fun hmem =>
    (dictLookup_eq_none_iff _ _).mp hlw (hinv _ hmem)
  have hhist : dictLookup st.histories body.workspace_id = none :=
    (dictLookup_eq_none_iff _ _).mpr hnokey
  have happ : ∀ record : HistMsg, appendHistGuarded st body.workspace_id record = st := by
    intro record
    unfold appendHistGuarded
    rw [if_neg (fun hc => hnokey hc.2)]
  have hph1 : chatPhase1 cfg st uid body msgId ts =
      .ok (chatAssemble cfg st body none body.model body.provider msgId ts) := by
    unfold chatPhase1
    rw [if_neg hv, if_pos hwsid]
    simp only [hlw]
  have hfst : (chatAssemble cfg st body none body.model body.provider msgId ts).1 = st :=
    happ _
  have hpair : chatAssemble cfg st body none body.model body.provider msgId ts =
      (st, (chatAssemble cfg st body none body.model body.provider msgId ts).2) :=
    Prod.ext hfst rfl
  have hcc : ∀ (r : UpstreamResult) (latency : Nat) (aid ats : String),
      chat_completion cfg st uid body msgId ts r latency aid ats =
        chatPhase2 st (chatAssemble cfg st body none body.model body.provider msgId ts).2
          r latency aid ats := by
    intro r latency aid ats
    simp only [chat_completion, hph1]
    rw [hfst]
  refine ⟨(chatAssemble cfg st body none body.model body.provider msgId ts).2,
    hph1.trans (congrArg Except.ok hpair), ?_, ?_, ?_, rfl, rfl, rfl, ?_⟩
  · simp [chatAssemble, hwsid, hhist, lastN]
  · simp [chatAssemble, dictLookup]
  · simp [chatAssemble, dictLookup]
  · intro r latency aid ats
    constructor
    · rw [hcc r latency aid ats]
      cases r with
      | timeout => rfl
      | transportError m => rfl
      | response status headers rb =>
        by_cases hs : status ≠ 200
        · simp only [chatPhase2, if_pos hs]
        · simp only [chatPhase2, if_neg hs]
          exact happ _
    · intro e
      rw [hcc r latency aid ats]
      exact chatPhase2_ne_httpError _ _ _ _ _ _ e

/-- C10 witness: `alice` chats naming the unknown workspace id `ghost` over
the store `stW`; the call is accepted and `stW` is untouched. -/
theorem c10_witness :
    ∃ ctx : ChatCtx,
      chatPhase1 cfg0 stW "alice" { workspace_id := "ghost", message := "hi" }
        "m1" "t1" = .ok (stW, ctx) ∧
      ctx.request.messages =
        [{ role := "user",
           content := chatUserContent stW { workspace_id := "ghost", message := "hi" } }] ∧
      ctx.request.temperature = SVal.num (7 / 10) ∧
      ctx.request.max_tokens = SVal.num 4096 ∧
      ctx.model = ChatBody.model { workspace_id := "ghost", message := "hi" } ∧
      ctx.provider = ChatBody.provider { workspace_id := "ghost", message := "hi" } ∧
      ctx.policy = ChatBody.policy { workspace_id := "ghost", message := "hi" } ∧
      ∀ (r : UpstreamResult) (latency : Nat) (aid ats : String),
        (chat_completion cfg0 stW "alice" { workspace_id := "ghost", message := "hi" }
          "m1" "t1" r latency aid ats).1 = stW ∧
        ∀ e : HttpErr,
          (chat_completion cfg0 stW "alice" { workspace_id := "ghost", message := "hi" }
            "m1" "t1" r latency aid ats).2 ≠ .httpError e :=
  c10_unknown_workspace_passthrough cfg0 stW "alice"
    { workspace_id := "ghost", message := "hi" } "m1" "t1"
    (by decide) (by decide) rfl
    (by intro k hk; simpa [stW, dictKeys] using hk)

/-! ## Claim C2 -/

/-- C2: the claim is false for the policy component.  A workspace whose
stored settings policy is `premium`: a call passing the three sentinels still
sends policy `auto` (the caller's value) upstream, while model and provider
are taken from the workspace. -/
def wsP : Workspace :=
  { id := "w2", name := "Prem", description := "", owner_id := "alice",
    owner_name := "Alice", members := [], model := "openrouter/openai/gpt-4o",
    provider := "openrouter", system_prompt := "", created_at := "t0",
    updated_at := "t0",
    settings := [("temperature", SVal.num 1), ("max_tokens", SVal.num 4096),
      ("policy", SVal.s "premium")] }

def stP : Store := { workspaces := [("w2", wsP)], histories := [("w2", [])], files := [] }

def bodyP : ChatBody := { workspace_id := "w2", message := "hi" }

/-- C2 counterexample: with the literal default sentinels for model, provider
and policy, the relay adopts the workspace's model and provider but keeps the
sentinel policy `"auto"` in the upstream request context — it does not use
the stored `"premium"`. -/
theorem c2_counterexample :
    dictLookup wsP.settings "policy" = some (SVal.s "premium") ∧
    bodyP.model = "rainymodel/auto" ∧ bodyP.provider = "rainymodel" ∧
    bodyP.policy = "auto" ∧
    (match chatPhase1 cfg0 stP "alice" bodyP "m1" "t1" with
     | .ok (_, ctx) => (ctx.request.model, ctx.provider, ctx.policy)
     | .error _ => ("", "", "")) =
      ("openrouter/openai/gpt-4o", "openrouter", "auto") ∧
    ("auto" : String) ≠ "premium" :=
  ⟨rfl, rfl, rfl, rfl, rfl, by decide⟩

/-- C2 (amended): when the caller passes the literal default sentinels, the
relay uses the workspace's stored model and provider in the upstream request;
the policy header, however, carries the caller's policy value unchanged — the
workspace's stored policy is never consulted. -/
theorem c2_amended_sentinel_defaults (cfg : Config) (st : Store) (uid : String)
    (body : ChatBody) (msgId ts : String) (w : Workspace)
    (hv : ¬ (body.message = "" ∧ body.files = []))
    (hwsid : body.workspace_id ≠ "")
    (hlw : dictLookup st.workspaces body.workspace_id = some w)
    (hacc : ¬ (w.owner_id ≠ uid ∧ uid ∉ w.members))
    (hm : body.model = "rainymodel/auto")
    (hp : body.provider = "rainymodel") :
    ∃ (st1 : Store) (ctx : ChatCtx),
      chatPhase1 cfg st uid body msgId ts = .ok (st1, ctx) ∧
      ctx.request.model = w.model ∧ ctx.model = w.model ∧ ctx.provider = w.provider ∧
      ctx.api_base = providerBaseUrl cfg w.provider ∧
      ctx.api_key = providerApiKey cfg w.provider ∧
      ctx.policy = body.policy := by
  have hph1 : chatPhase1 cfg st uid body msgId ts =
      .ok (chatAssemble cfg st body (some w) w.model w.provider msgId ts) := by
    unfold chatPhase1
    rw [if_neg hv, if_pos hwsid]
    simp only [hlw, hm, hp]
    rw [if_neg hacc]
    simp
  exact ⟨_, _, hph1, rfl, rfl, rfl, rfl, rfl, rfl⟩

/-- C2 witness for the amended claim: owner `alice` of `wsP` passes all three
sentinels; the upstream request uses `wsP`'s model and provider and keeps the
caller's policy. -/
theorem c2_witness :
    ∃ (st1 : Store) (ctx : ChatCtx),
      chatPhase1 cfg0 stP "alice" bodyP "m1" "t1" = .ok (st1, ctx) ∧
      ctx.request.model = wsP.model ∧ ctx.model = wsP.model ∧
      ctx.provider = wsP.provider ∧
      ctx.api_base = providerBaseUrl cfg0 wsP.provider ∧
      ctx.api_key = providerApiKey cfg0 wsP.provider ∧
      ctx.policy = bodyP.policy :=
  c2_amended_sentinel_defaults cfg0 stP "alice" bodyP "m1" "t1" wsP
    (by decide) (by decide) rfl (by decide) rfl rfl

end Orcest
